import Mathlib

/-!
Verification of the DMX-to-Output orchestration core of the MediaPlayer-e131
repository (a Tauri/React media player driven by sACN/E1.31 DMX input).

The definitions below are a shallow embedding of the TypeScript source:

* `src/src/types.ts` — configuration records and the channel-group helpers.
* `src/src/App.tsx` — the `dmx-update` listeners (preview `PreviewSection`
  and production mode), the media resolvers `getProdMediaFile` and
  `getMediaFileForDmx`, the output-window update/close effects, the preview
  opacity style, the video `ended` handler, and the preview-mode toggle.

React state is modelled by explicit records; each `dmx-update` event is a
pure state transformer; a `useEffect` whose dependency list changed is
modelled as an emitted command / an observed transition.
-/

namespace MediaPlayer

/-- From `src/src/types.ts`: the per-monitor configuration fields consumed by
the orchestration core (`enabled`, `start_channel`, `media_folder`). -/
structure MonitorConfig where
  enabled : Bool
  start_channel : Nat
  media_folder : String
deriving DecidableEq, Repr

/-- From `src/src/types.ts` `getClipChannel`: the clip/select channel of a
monitor is its start channel. -/
def getClipChannel (monitor : MonitorConfig) : Nat :=
  monitor.start_channel

/-- From `src/src/types.ts` `getDimmerChannel`: start channel + 1. -/
def getDimmerChannel (monitor : MonitorConfig) : Nat :=
  monitor.start_channel + 1

/-- From `src/src/types.ts` `getPlaytypeChannel`: start channel + 2. -/
def getPlaytypeChannel (monitor : MonitorConfig) : Nat :=
  monitor.start_channel + 2

/-- From `src/src/types.ts` `DmxUpdate`: one raw update event. The source
field called "universe" is renamed `univ` (keyword clash); the listeners in
`App.tsx` never read it. -/
structure DmxUpdate where
  univ : Nat
  channel : Nat
  value : Nat
deriving DecidableEq, Repr

/-- From `src/src/types.ts` `PreviewMode`. -/
inductive PreviewMode where
  | Listen
  | Test
deriving DecidableEq, Repr

/-- The slice of `src/src/types.ts` `AppConfig` that the listeners read. -/
structure AppConfig where
  monitor1 : MonitorConfig
  monitor2 : MonitorConfig
  preview : PreviewMode
deriving DecidableEq, Repr

/-- JavaScript `s.startsWith(pre)`: the characters of `pre` are a prefix of
the characters of `s` (kernel-computable rendering of `String.startsWith`). -/
def jsStartsWith (s pre : String) : Bool :=
  pre.data.isPrefixOf s.data

/-- JavaScript `n.toString().padStart(3, '0')` for a natural number:
left-pad the decimal representation with zeros to length 3. -/
def padStart3 (n : Nat) : String :=
  let s := toString n
  if s.length ≥ 3 then s
  else String.mk (List.replicate (3 - s.length) '0') ++ s

/-- From `src/src/App.tsx` (production mode) `getProdMediaFile`:
`if (dmxValue === 0) return null; const padded = dmxValue.toString().padStart(3,'0');
return files.find(f => f.startsWith(padded + '_')) || null`. -/
def getProdMediaFile (dmxValue : Nat) (files : List String) : Option String :=
  if dmxValue = 0 then none
  else files.find? (fun f => jsStartsWith f (padStart3 dmxValue ++ "_"))

/-- From `src/src/App.tsx` (`PreviewSection`, duplicated verbatim in
`PresentationSection`) `getMediaFileForDmx`:
`const paddedValue = dmxValue.toString().padStart(3,'0');
return files.find(f => f.startsWith(paddedValue + '_')) || null`.
Note: unlike `getProdMediaFile`, there is no `dmxValue === 0` guard. -/
def getMediaFileForDmx (dmxValue : Nat) (files : List String) : Option String :=
  files.find? (fun f => jsStartsWith f (padStart3 dmxValue ++ "_"))

/-- From `src/src/App.tsx` (preview output-window update effect): the media
URL sent to the output window is
`monitor1File && monitor1Video > 0 ? convertFileSrc(folder + '/' + file) : null`.
URL conversion (`convertFileSrc`) is the external Tauri asset boundary; the
model keeps the `folder/file` path it is applied to. -/
def previewMediaUrl (file : Option String) (video : Nat) (folder : String) :
    Option String :=
  match file with
  | some f => if 0 < video then some (folder ++ "/" ++ f) else none
  | none => none

/-- The spec-side matching rule, for comparison with the code (refinement):
the name starts with the zero-padded 3-digit selector followed by any
non-digit separator character. -/
def specSeparatorMatch (select : Nat) (f : String) : Bool :=
  match f.data with
  | a :: b :: c :: sep :: _ =>
      decide ([a, b, c] = (padStart3 select).data) && !sep.isDigit
  | _ => false

/-- Ascending insertion by filename (for the spec-side sorted listing). -/
def insertAsc (a : String) : List String → List String
  | [] => [a]
  | b :: bs => if a ≤ b then a :: b :: bs else b :: insertAsc a bs

/-- Sort a listing ascending by filename (for the spec-side resolver). -/
def sortAsc : List String → List String
  | [] => []
  | a :: as => insertAsc a (sortAsc as)

/-- The resolver as the spec words it, for comparison with the code: `None`
for `select == 0`, otherwise the first entry of the ascending-sorted listing
whose name starts with the padded digits followed by a non-digit separator. -/
def resolveSpecSide (select : Nat) (files : List String) : Option String :=
  if select = 0 then none
  else (sortAsc files).find? (fun f => specSeparatorMatch select f)

/-- The six per-monitor signal values held by the `PreviewSection` component
(`monitor1Video/Dimmer/Mode`, `monitor2Video/Dimmer/Mode` in `App.tsx`). -/
structure PreviewState where
  m1Video : Nat
  m1Dimmer : Nat
  m1Mode : Nat
  m2Video : Nat
  m2Dimmer : Nat
  m2Mode : Nat
deriving DecidableEq, Repr

/-- The `useState` initial values of the six signals in `PreviewSection`:
video 0, dimmer 255, mode 0 for each monitor. -/
def initialSignals : PreviewState :=
  { m1Video := 0, m1Dimmer := 255, m1Mode := 0
    m2Video := 0, m2Dimmer := 255, m2Mode := 0 }

/-- Monitor-1 half of the `dmx-update` listener in `PreviewSection`
(`App.tsx`): if monitor 1 is enabled, an update on its clip / dimmer / mode
channel overwrites that one signal; any other channel leaves the state
unchanged. -/
def applyM1 (cfg : AppConfig) (s : PreviewState) (u : DmxUpdate) : PreviewState :=
  if cfg.monitor1.enabled then
    if u.channel = cfg.monitor1.start_channel then { s with m1Video := u.value }
    else if u.channel = cfg.monitor1.start_channel + 1 then { s with m1Dimmer := u.value }
    else if u.channel = cfg.monitor1.start_channel + 2 then { s with m1Mode := u.value }
    else s
  else s

/-- Monitor-2 half of the `dmx-update` listener in `PreviewSection`. -/
def applyM2 (cfg : AppConfig) (s : PreviewState) (u : DmxUpdate) : PreviewState :=
  if cfg.monitor2.enabled then
    if u.channel = cfg.monitor2.start_channel then { s with m2Video := u.value }
    else if u.channel = cfg.monitor2.start_channel + 1 then { s with m2Dimmer := u.value }
    else if u.channel = cfg.monitor2.start_channel + 2 then { s with m2Mode := u.value }
    else s
  else s

/-- One `dmx-update` event as handled by the `PreviewSection` listener: the
monitor-1 checks run, then the monitor-2 checks (both `if` blocks execute in
the source; they are not exclusive). -/
def applyDmxUpdate (cfg : AppConfig) (s : PreviewState) (u : DmxUpdate) :
    PreviewState :=
  applyM2 cfg (applyM1 cfg s u) u

/-- Monitor 1's committed (select, dimmer, mode) triple. -/
def m1Triple (s : PreviewState) : Nat × Nat × Nat :=
  (s.m1Video, s.m1Dimmer, s.m1Mode)

/-- The transitions monitor 1's output effects observe while a sequence of
raw updates is processed: each event is applied immediately, and whenever
the (select, dimmer, mode) triple differs from the previous render the
update effect (whose dependency list holds exactly these signals) fires with
the full current triple. -/
def observedM1 (cfg : AppConfig) : PreviewState → List DmxUpdate →
    List (Nat × Nat × Nat)
  | _, [] => []
  | s, u :: us =>
      let t := applyDmxUpdate cfg s u
      if m1Triple t = m1Triple s then observedM1 cfg t us
      else m1Triple t :: observedM1 cfg t us

/-- A command sent to an output window: `update_output_window` with a media
URL (or null), dimmer and playtype, or `close_output_window`. -/
inductive SurfaceCmd where
  | update (mediaUrl : Option String) (dimmer : Nat) (playtype : Nat)
  | close
deriving DecidableEq, Repr

/-- The commands the two production-mode effects in `App.tsx` emit for
monitor 1 at a committed (video, dimmer, mode) state, while production is
active: the update effect returns early when `video === 255` and otherwise
sends `update_output_window` with the resolved media URL (null when
unresolved); the separate close effect sends `close_output_window` exactly
when `video === 255`. -/
def prodCommandsM1 (enabled : Bool) (folder : String) (files : List String)
    (video dimmer mode : Nat) : List SurfaceCmd :=
  (if enabled = true ∧ video ≠ 255 then
    [SurfaceCmd.update ((getProdMediaFile video files).map (fun f => folder ++ "/" ++ f))
      dimmer mode]
  else []) ++
  (if video = 255 then [SurfaceCmd.close] else [])

/-- The monitor-1 slice of `PreviewSection` state read by the rendering and
player effects. -/
structure PvState where
  video : Nat
  dimmer : Nat
  mode : Nat
  files : List String
  folder : String
deriving DecidableEq, Repr

/-- `const monitor1File = getMediaFileForDmx(monitor1Video, monitor1Files)`
in `PreviewSection`. -/
def monitor1File (s : PvState) : Option String :=
  getMediaFileForDmx s.video s.files

/-- The preview surface opacity: `opacity: monitor1Dimmer / 255` in the
preview styles of `App.tsx` (JS float division, modelled in `ℚ`). -/
def previewOpacity (s : PvState) : ℚ :=
  (s.dimmer : ℚ) / 255

/-- The dependency list of the monitor-1 video source-loading effect in
`PreviewSection`: `[monitor1File, monitor1Video, config.monitor1.media_folder]`.
The effect (which calls `player.src(...)`, `load()`, `play()`) re-runs only
when one of these changes; `monitor1Dimmer` and `monitor1Mode` are not in
the list. -/
def loadEffectDeps (s : PvState) : Option String × Nat × String :=
  (monitor1File s, s.video, s.folder)

/-- The band test in the body of the monitor-1 `ended` handler in
`PreviewSection` (`// Mode: 0-127 = loop, 128-255 = no loop`): restart
playback from 0 iff the mode value supplied to it is `< 128`. Which value is
supplied is decided by `endedHandlerLoops` below: the handler is a closure
that captured `monitor1Mode` at the render that created the player, not a
reader of the current committed mode. -/
def monitor1EndedLoops (mode : Nat) : Bool :=
  decide (mode < 128)

/-- The monitor-1 video.js player ref in `PreviewSection`: `created` models
`monitor1PlayerRef.current` being non-null, and `capturedMode` is the
`monitor1Mode` value frozen in the `ended` handler's closure when the player
was created (the handler is registered exactly once, inside
`if (!monitor1PlayerRef.current)`; the player is disposed only on unmount). -/
structure PlayerRef where
  created : Bool
  capturedMode : Nat
deriving DecidableEq, Repr

/-- One run of the monitor-1 source-loading effect in `PreviewSection` as it
concerns the player lifecycle: when a video file is resolved and no player
exists yet, the player is created and the `ended` handler is registered,
capturing the committed mode of that render; on every other run the player
and its handler (with the originally captured mode) survive unchanged. The
effect's dependency list is `loadEffectDeps`, which excludes the mode, so a
committed mode change alone does not even re-run it. -/
def runLoadEffectM1 (p : PlayerRef) (committedMode : Nat) (isVideo : Bool) :
    PlayerRef :=
  if isVideo ∧ p.created = false then
    { created := true, capturedMode := committedMode }
  else p

/-- The loop decision actually taken at end-of-media:
`if (monitor1Mode < 128 && monitor1PlayerRef.current)` evaluated inside the
registered closure, i.e. the band test applied to the captured mode, and the
player must still exist. -/
def endedHandlerLoops (p : PlayerRef) : Bool :=
  monitor1EndedLoops p.capturedMode && p.created

/-- The `update_output_window` command the monitor-1 preview output effect
sends at a given state (enabled output, Test or Listen mode). -/
def updateWindowCmd (s : PvState) : SurfaceCmd :=
  SurfaceCmd.update (previewMediaUrl (monitor1File s) s.video s.folder)
    s.dimmer s.mode

/-- The `PreviewSection` component state that survives a preview-mode
switch: the app config plus the six signal values. -/
structure PreviewSection where
  cfg : AppConfig
  signals : PreviewState
deriving DecidableEq, Repr

/-- The Listen / Test toggle buttons in `PreviewSection`:
`onClick={() => saveConfig({ ...config, preview: mode })}` — `saveConfig`
persists and stores the new config; no monitor signal state is written. -/
def switchPreviewMode (p : PreviewSection) (m : PreviewMode) : PreviewSection :=
  { p with cfg := { p.cfg with preview := m } }

end MediaPlayer

namespace MediaPlayer

/-- `find?` returns exactly the first element satisfying the predicate:
characterization by a list split. -/
theorem find?_eq_some_split {α : Type} (p : α → Bool) (l : List α) (b : α) :
    l.find? p = some b ↔
      p b = true ∧ ∃ l1 l2, l = l1 ++ b :: l2 ∧ ∀ a ∈ l1, p a = false := by
  induction l with
  | nil => simp
  | cons a l ih =>
    by_cases h : p a = true
    · rw [List.find?_cons_of_pos _ h]
      constructor
      · rintro hb
        obtain rfl : a = b := by simpa using hb
        exact ⟨h, [], l, rfl, by simp⟩
      · rintro ⟨hb, l1, l2, heq, hall⟩
        cases l1 with
        | nil =>
          obtain ⟨rfl, rfl⟩ : a = b ∧ l = l2 := by simpa using heq
          rfl
        | cons c l1 =>
          obtain ⟨rfl, -⟩ : a = c ∧ l = l1 ++ b :: l2 := by simpa using heq
          exact absurd h (by simpa using hall a (by simp))
    · rw [List.find?_cons_of_neg _ h, ih]
      constructor
      · rintro ⟨hb, l1, l2, rfl, hall⟩
        refine ⟨hb, a :: l1, l2, rfl, ?_⟩
        intro x hx
        rcases List.mem_cons.mp hx with rfl | hx
        · simpa using h
        · exact hall x hx
      · rintro ⟨hb, l1, l2, heq, hall⟩
        cases l1 with
        | nil =>
          obtain ⟨rfl, rfl⟩ : a = b ∧ l = l2 := by simpa using heq
          exact absurd hb h
        | cons c l1 =>
          obtain ⟨rfl, rfl⟩ : a = c ∧ l = l1 ++ b :: l2 := by simpa using heq
          exact ⟨hb, l1, l2, rfl, fun x hx => hall x (by simp [hx])⟩

/-- C3 counterexample: the spec-worded resolver (any non-digit separator)
accepts `001-intro.mp4` for selector 1, but the code, which requires the
separator to be an underscore, resolves it to nothing. -/
theorem c3_counterexample :
    resolveSpecSide 1 ["001-intro.mp4"] = some "001-intro.mp4" ∧
    getMediaFileForDmx 1 ["001-intro.mp4"] = none := by decide

/-- C3 (amended): `getMediaFileForDmx` zero-pads the selector to 3 digits and
returns the first entry of the listing (in the order provided) whose name
starts with the padded digits followed by an underscore; names such as
`0010_x.mp4` therefore never match selector 1, and a non-underscore
separator such as `001-intro.mp4` never matches at all. -/
theorem c3_underscore_separator :
    (∀ (sel : Nat) (files : List String) (f : String),
        getMediaFileForDmx sel files = some f ↔
          jsStartsWith f (padStart3 sel ++ "_") = true ∧
          ∃ l1 l2, files = l1 ++ f :: l2 ∧
            ∀ g ∈ l1, jsStartsWith g (padStart3 sel ++ "_") = false) ∧
    getMediaFileForDmx 1 ["0010_x.mp4"] = none ∧
    getMediaFileForDmx 1 ["001-intro.mp4"] = none ∧
    getMediaFileForDmx 1 ["001_intro.mp4"] = some "001_intro.mp4" :=
  ⟨fun sel files f => find?_eq_some_split _ files f, by decide, by decide, by decide⟩

/-- C4 counterexample: for `select == 0` the preview/test resolver
`getMediaFileForDmx` does match a catalog entry whose name begins with
`000_`, refuting "resolved media is always None regardless of catalog
contents". -/
theorem c4_counterexample :
    getMediaFileForDmx 0 ["000_black.mp4"] = some "000_black.mp4" := by decide

/-- C4 (amended): for `select == 0` the production resolver
`getProdMediaFile` always returns `none`, and the preview output-window
update sends a null media URL (its `monitor1Video > 0` guard fails), but
`getMediaFileForDmx` itself lacks the zero guard and can match a `000_`
prefixed file. -/
theorem c4_select_zero :
    (∀ files : List String, getProdMediaFile 0 files = none) ∧
    (∀ (files : List String) (folder : String),
        previewMediaUrl (getMediaFileForDmx 0 files) 0 folder = none) ∧
    getMediaFileForDmx 0 ["000_black.mp4"] = some "000_black.mp4" := by
  refine ⟨fun files => rfl, fun files folder => ?_, by decide⟩
  cases getMediaFileForDmx 0 files <;> simp [previewMediaUrl]

/-- C9 counterexample: the two resolvers disagree at dmx value 0 when the
folder holds a `000_`-prefixed file. -/
theorem c9_counterexample :
    getProdMediaFile 0 ["000_bars.mp4"] = none ∧
    getMediaFileForDmx 0 ["000_bars.mp4"] = some "000_bars.mp4" ∧
    getProdMediaFile 0 ["000_bars.mp4"] ≠ getMediaFileForDmx 0 ["000_bars.mp4"] := by
  decide

/-- C9 (amended): the production resolver and the preview/test resolver
agree for every dmx value from 1 to 255 (indeed for every nonzero value) and
every file list; they differ only at 0, where `getProdMediaFile` is `none`
while `getMediaFileForDmx` may match a `000_`-prefixed entry. -/
theorem c9_resolver_agreement (d : Nat) (files : List String) (h : 1 ≤ d) :
    getProdMediaFile d files = getMediaFileForDmx d files := by
  unfold getProdMediaFile getMediaFileForDmx
  rw [if_neg (by omega)]

/-- Witness for `c9_resolver_agreement` at dmx value 1. -/
theorem c9_resolver_agreement_witness :
    getProdMediaFile 1 ["001_intro.mp4"] = getMediaFileForDmx 1 ["001_intro.mp4"] :=
  c9_resolver_agreement 1 ["001_intro.mp4"] (by decide)

end MediaPlayer

namespace MediaPlayer

/-- C2 counterexample: at a committed select of 0 the production effects
send `update_output_window` with a null media URL and do not close the
window — the surface stays open and blank, refuting "its playback surface is
released (closed)". -/
theorem c2_counterexample :
    prodCommandsM1 true "media" ["001_a.mp4"] 0 255 0 =
      [SurfaceCmd.update none 255 0] ∧
    SurfaceCmd.close ∉ prodCommandsM1 true "media" ["001_a.mp4"] 0 255 0 := by
  decide

/-- C2 (amended): a committed select of 0 resolves to no media and sends an
update with a null media URL, leaving the surface open but blank; the
surface is released (closed) when select is 255; and a dimmer of 0 never
closes the surface (the output merely becomes transparent). -/
theorem c2_select_zero_blank (folder : String) (files : List String)
    (d m v : Nat) (hv : v ≠ 255) :
    prodCommandsM1 true folder files 0 d m = [SurfaceCmd.update none d m] ∧
    prodCommandsM1 true folder files 255 d m = [SurfaceCmd.close] ∧
    SurfaceCmd.close ∉ prodCommandsM1 true folder files v 0 m := by
  refine ⟨?_, ?_, ?_⟩
  · simp [prodCommandsM1, getProdMediaFile]
  · simp [prodCommandsM1]
  · by_cases h : v = 255
    · exact absurd h hv
    · simp [prodCommandsM1, h]

/-- Witness for `c2_select_zero_blank` at select 5, dimmer 0. -/
theorem c2_select_zero_blank_witness :
    prodCommandsM1 true "media" ["001_a.mp4"] 0 128 0 =
      [SurfaceCmd.update none 128 0] ∧
    prodCommandsM1 true "media" ["001_a.mp4"] 255 128 0 = [SurfaceCmd.close] ∧
    SurfaceCmd.close ∉ prodCommandsM1 true "media" ["001_a.mp4"] 5 0 0 :=
  c2_select_zero_blank "media" ["001_a.mp4"] 128 0 5 (by decide)

/-- C10: in production mode a committed select of 255 closes that monitor's
output window and sends no `update_output_window` command (the update effect
returns early on 255), for any enabled flag, folder, file list, dimmer and
mode. -/
theorem c10_select_255_reserved (en : Bool) (folder : String)
    (files : List String) (d m : Nat) :
    prodCommandsM1 en folder files 255 d m = [SurfaceCmd.close] ∧
    ∀ (url : Option String) (dd mm : Nat),
      SurfaceCmd.update url dd mm ∉ prodCommandsM1 en folder files 255 d m := by
  have h : prodCommandsM1 en folder files 255 d m = [SurfaceCmd.close] := by
    simp [prodCommandsM1]
  exact ⟨h, by intro url dd mm; simp [h]⟩

/-- C6: the `ended` handler's band test does place the boundary at 127/128
(127 loops, 128 does not), but the handler is registered once at player
creation and its closure freezes the mode of that render, so committed mode
changes never reach it. Evaluated at the failing input — player created
while the committed mode is 0, committed mode then raised to 128, clip 5
still resolved — the stale captured mode 0 makes end-of-media loop, where
the claim (and the handler's own comment) demand play-once-and-hold; the
load effect neither re-registers the handler (the player already exists)
nor re-runs at all (its dependency triple is unchanged by the mode). -/
theorem c6_stale_mode_capture :
    runLoadEffectM1 ⟨false, 0⟩ 0 true = ⟨true, 0⟩ ∧
    runLoadEffectM1 ⟨true, 0⟩ 128 true = ⟨true, 0⟩ ∧
    endedHandlerLoops ⟨true, 0⟩ = true ∧
    monitor1EndedLoops 128 = false ∧
    monitor1EndedLoops 127 = true ∧
    loadEffectDeps
        { video := 5, dimmer := 255, mode := 128,
          files := ["005_clip.mp4"], folder := "media" } =
      loadEffectDeps
        { video := 5, dimmer := 255, mode := 0,
          files := ["005_clip.mp4"], folder := "media" } := by
  decide

/-- C7: a committed dimmer change alone sets the preview opacity to
dimmer/255 and changes nothing else — the resolved file, the source-loading
effect dependencies (so no reload or restart), the media URL of the window
update, and the loop decision are all unchanged. -/
theorem c7_dimmer_only :
    (∀ (s : PvState) (d : Nat),
        previewOpacity { s with dimmer := d } = (d : ℚ) / 255) ∧
    (∀ (s : PvState) (d : Nat),
        monitor1File { s with dimmer := d } = monitor1File s) ∧
    (∀ (s : PvState) (d : Nat),
        loadEffectDeps { s with dimmer := d } = loadEffectDeps s) ∧
    (∀ (s : PvState) (d : Nat),
        updateWindowCmd { s with dimmer := d } =
          SurfaceCmd.update (previewMediaUrl (monitor1File s) s.video s.folder)
            d s.mode) ∧
    (∀ (s : PvState) (d : Nat),
        monitor1EndedLoops ({ s with dimmer := d }).mode =
          monitor1EndedLoops s.mode) :=
  ⟨fun _ _ => rfl, fun _ _ => rfl, fun _ _ => rfl, fun _ _ => rfl, fun _ _ => rfl⟩

/-- C5 counterexample: switching the preview source from Test to Listen
leaves the six signal values exactly as the Test source committed them —
monitor 1 still selects clip 5 — instead of resetting to the initial Idle
baseline (video 0, dimmer 255, mode 0). -/
theorem c5_counterexample :
    (switchPreviewMode
        ⟨⟨⟨true, 1, "m"⟩, ⟨false, 10, "m"⟩, PreviewMode.Test⟩,
          ⟨5, 128, 200, 0, 255, 0⟩⟩ PreviewMode.Listen).signals =
      ⟨5, 128, 200, 0, 255, 0⟩ ∧
    (⟨5, 128, 200, 0, 255, 0⟩ : PreviewState) ≠ initialSignals := by decide

/-- C5 (amended): switching the preview source only rewrites the preview
field of the config (detaching one listener effect and attaching the other);
every committed signal value survives the switch unchanged, so state from
the previous source stays visible until the new source overwrites it. -/
theorem c5_mode_switch_keeps_state :
    ∀ (p : PreviewSection) (m : PreviewMode),
      (switchPreviewMode p m).cfg.preview = m ∧
      (switchPreviewMode p m).signals = p.signals ∧
      (switchPreviewMode p m).cfg.monitor1 = p.cfg.monitor1 ∧
      (switchPreviewMode p m).cfg.monitor2 = p.cfg.monitor2 :=
  fun _ _ => ⟨rfl, rfl, rfl, rfl⟩

end MediaPlayer

namespace MediaPlayer

/-- C8: a raw update whose channel is none of the clip, dimmer, or playtype
channels of any enabled monitor leaves every committed signal unchanged —
the listener silently ignores it. -/
theorem c8_ignore_unmatched (cfg : AppConfig) (s : PreviewState) (u : DmxUpdate)
    (h1 : cfg.monitor1.enabled = true →
        u.channel ≠ getClipChannel cfg.monitor1 ∧
        u.channel ≠ getDimmerChannel cfg.monitor1 ∧
        u.channel ≠ getPlaytypeChannel cfg.monitor1)
    (h2 : cfg.monitor2.enabled = true →
        u.channel ≠ getClipChannel cfg.monitor2 ∧
        u.channel ≠ getDimmerChannel cfg.monitor2 ∧
        u.channel ≠ getPlaytypeChannel cfg.monitor2) :
    applyDmxUpdate cfg s u = s := by
  unfold getClipChannel getDimmerChannel getPlaytypeChannel at h1 h2
  unfold applyDmxUpdate
  have k1 : applyM1 cfg s u = s := by
    unfold applyM1
    by_cases e1 : cfg.monitor1.enabled
    · obtain ⟨a, b, c⟩ := h1 e1
      simp [e1, a, b, c]
    · simp [e1]
  rw [k1]
  unfold applyM2
  by_cases e2 : cfg.monitor2.enabled
  · obtain ⟨a, b, c⟩ := h2 e2
    simp [e2, a, b, c]
  · simp [e2]

/-- Witness for `c8_ignore_unmatched`: channel 100 lies outside the groups
starting at 1 and 10, so the state is untouched. -/
theorem c8_ignore_unmatched_witness :
    applyDmxUpdate ⟨⟨true, 1, "a"⟩, ⟨true, 10, "b"⟩, PreviewMode.Listen⟩
      ⟨1, 2, 3, 4, 5, 6⟩ ⟨1, 100, 42⟩ = ⟨1, 2, 3, 4, 5, 6⟩ :=
  c8_ignore_unmatched _ _ _ (by decide) (by decide)

/-- C1 counterexample: three raw updates (select 5, dimmer 128, mode 200 on
channels 1, 2, 3) arriving together produce three observed transitions, the
first pairing the new select with the old dimmer and mode — not the claimed
single combined transition. -/
theorem c1_counterexample :
    observedM1 ⟨⟨true, 1, "m"⟩, ⟨false, 10, "m"⟩, PreviewMode.Listen⟩
        ⟨0, 255, 0, 0, 255, 0⟩ [⟨1, 1, 5⟩, ⟨1, 2, 128⟩, ⟨1, 3, 200⟩] =
      [(5, 255, 0), (5, 128, 0), (5, 128, 200)] ∧
    (observedM1 ⟨⟨true, 1, "m"⟩, ⟨false, 10, "m"⟩, PreviewMode.Listen⟩
        ⟨0, 255, 0, 0, 255, 0⟩ [⟨1, 1, 5⟩, ⟨1, 2, 128⟩, ⟨1, 3, 200⟩]).length ≠ 1 := by
  decide

/-- C1 (amended): there is no coalescing window — each raw update is applied
and observed immediately, so select, dimmer, and mode updates arriving
together yield three transitions: first the new select with the old dimmer
and mode, then the new dimmer, and only the final transition carries all
three new values. -/
theorem c1_per_update_transitions (cfg : AppConfig) (s : PreviewState)
    (uu sel dim mode : Nat)
    (he1 : cfg.monitor1.enabled = true) (he2 : cfg.monitor2.enabled = false)
    (hsel : sel ≠ s.m1Video) (hdim : dim ≠ s.m1Dimmer)
    (hmode : mode ≠ s.m1Mode) :
    observedM1 cfg s
        [⟨uu, getClipChannel cfg.monitor1, sel⟩,
         ⟨uu, getDimmerChannel cfg.monitor1, dim⟩,
         ⟨uu, getPlaytypeChannel cfg.monitor1, mode⟩] =
      [(sel, s.m1Dimmer, s.m1Mode), (sel, dim, s.m1Mode), (sel, dim, mode)] := by
  have h10 : cfg.monitor1.start_channel + 1 ≠ cfg.monitor1.start_channel := by omega
  have h20 : cfg.monitor1.start_channel + 2 ≠ cfg.monitor1.start_channel := by omega
  have h21 : cfg.monitor1.start_channel + 2 ≠ cfg.monitor1.start_channel + 1 := by
    omega
  simp [observedM1, applyDmxUpdate, applyM1, applyM2, m1Triple,
    getClipChannel, getDimmerChannel, getPlaytypeChannel,
    he1, he2, h10, h20, h21, hsel, hdim, hmode]

/-- Witness for `c1_per_update_transitions` on channels 1, 2, 3 with new
values 5, 128, 200 from the blank baseline. -/
theorem c1_per_update_transitions_witness :
    observedM1 ⟨⟨true, 1, "w"⟩, ⟨false, 10, "w"⟩, PreviewMode.Listen⟩
        ⟨0, 255, 0, 0, 255, 0⟩ [⟨0, 1, 5⟩, ⟨0, 2, 128⟩, ⟨0, 3, 200⟩] =
      [(5, 255, 0), (5, 128, 0), (5, 128, 200)] :=
  c1_per_update_transitions _ _ 0 5 128 200 rfl rfl (by decide) (by decide)
    (by decide)

end MediaPlayer
